import Mathlib

/-!
Verification development for the `data_mapper` repository.

The Python sources under `src/data_mapper/` are shallowly embedded below:
Python dictionaries become insertion-ordered association lists, `None`
becomes `Option.none`, dynamic `isinstance` checks become pattern matches
on small sum types enumerating the shapes the code distinguishes, and
exceptions become `Except` results.  Class-level mutable registry state is
passed explicitly: every registry operation takes the registry state and
returns it (updated by the register/initialize operations, unchanged by
the getters and validators, mirroring the absence of writes in their
Python bodies).
-/

namespace DataMapper

/-- Python dictionary lookup (`d.get(k)` / `d[k]` membership side):
returns the value stored at the first (unique) occurrence of the key. -/
def dictGet {κ α : Type} [DecidableEq κ] : List (κ × α) → κ → Option α
  | [], _ => none
  | (k₁, v₁) :: rest, k => if k₁ = k then some v₁ else dictGet rest k

/-- Python dictionary assignment `d[k] = v`: if the key is present its value
is replaced in place (the key keeps its original insertion slot); otherwise
the pair is appended at the end, as Python dicts preserve insertion order. -/
def dictSet {κ α : Type} [DecidableEq κ] : List (κ × α) → κ → α → List (κ × α)
  | [], k, v => [(k, v)]
  | (k₁, v₁) :: rest, k, v =>
      if k₁ = k then (k, v) :: rest else (k₁, v₁) :: dictSet rest k v

/-- Keys of a Python dictionary, in insertion order. -/
def dictKeys {κ α : Type} (d : List (κ × α)) : List κ := d.map Prod.fst

/-- Values of a Python dictionary, in insertion order (`list(d.values())`). -/
def dictValues {κ α : Type} (d : List (κ × α)) : List α := d.map Prod.snd

/-- Python `s.strip()`: drops leading and trailing whitespace.  Defined on
the character list so that it reduces definitionally (the core `String.trim`
does not), which concrete evaluations below rely on. -/
def pyStrip (s : String) : String :=
  ⟨((s.data.dropWhile Char.isWhitespace).reverse.dropWhile Char.isWhitespace).reverse⟩

/-- Python `s.lower()` (the strings of this repository are ASCII). -/
def pyLower (s : String) : String :=
  ⟨s.data.map Char.toLower⟩

/-- Python `len(s.strip()) == 0`. -/
def pyIsBlankStr (s : String) : Bool :=
  (pyStrip s).data.isEmpty

/-- Python `x is None or len(x.strip()) == 0` on an optional string. -/
def is_blank_opt (s : Option String) : Bool :=
  match s with
  | none => true
  | some t => pyIsBlankStr t

/-- The `DatabaseSystem` enumeration from `src/data_mapper/database/base.py`. -/
inductive DatabaseSystem where
  | mysql
  | postgresql
  | sqlite
  | mongodb
  | couchdb
deriving DecidableEq

/-- Honors `DatabaseSystem.<member>.value` from the Python enum. -/
def DatabaseSystem.value : DatabaseSystem → String
  | .mysql => "mysql"
  | .postgresql => "postgresql"
  | .sqlite => "sqlite"
  | .mongodb => "mongodb"
  | .couchdb => "couchdb"

/-- The `DatabaseProfile` data holder from `src/data_mapper/database/base.py`:
every attribute may be Python `None` (the constructor defaults). -/
structure DatabaseProfile where
  name : Option String
  system : Option String
  host : Option String
  port : Option String
  user : Option String
  password : Option String
  db : Option String
deriving DecidableEq

/-- Makes a profile from name and system only, all other attributes `None`,
as in `DatabaseProfile(name, system=...)`. -/
def DatabaseProfile.mk₂ (name system : Option String) : DatabaseProfile :=
  ⟨name, system, none, none, none, none, none⟩

/-- A Python class object that may be passed to `register_database`: the
embedding records whether it is a subclass of `Database` and what its
class-level `system` attribute is (`none` when that attribute is not an
instance of the `DatabaseSystem` enum, e.g. the base class default `None`). -/
structure DatabaseClass where
  classId : Nat
  isDatabaseSubclass : Bool
  system : Option DatabaseSystem
deriving DecidableEq

/-- The `MySQLDatabase` driver class of `src/data_mapper/database/mysql.py`:
a `Database` subclass with `system = DatabaseSystem.MYSQL`. -/
def MySQLDatabase : DatabaseClass :=
  { classId := 0, isDatabaseSubclass := true, system := some .mysql }

/-- The `SQLiteDatabase` driver class of `src/data_mapper/database/sqlite.py`:
a `Database` subclass with `system = DatabaseSystem.SQLITE`. -/
def SQLiteDatabase : DatabaseClass :=
  { classId := 1, isDatabaseSubclass := true, system := some .sqlite }

/-- A driver instance: calling a registered driver class on a profile stores
the profile (both drivers' `__init__` assign `self.db_profile = db_profile`). -/
structure DatabaseInstance where
  cls : DatabaseClass
  db_profile : DatabaseProfile
deriving DecidableEq

/-- A Python object passed where a `DatabaseProfile` is expected: either an
actual `DatabaseProfile` instance or some other object (the tests pass
`object()` and `""`); wrapped in `Option` at use sites for Python `None`. -/
inductive PyObj where
  | profile (p : DatabaseProfile)
  | other
deriving DecidableEq

/-- The error families of the repository (subclasses of `DataMapperError`);
the embedding keeps the family and the integer code and drops the message
text, which no claim depends on. -/
inductive ErrorKind where
  | dataMapperError
  | registerDatabaseError
  | registerProfileError
  | getDatabaseError
  | getProfileError
  | parseProfileConfigFileError
  | registerMapperError
  | getMapperError
deriving DecidableEq

/-- A raised `DataMapperError`: its family and its integer code. -/
structure DMError where
  kind : ErrorKind
  code : Nat
deriving DecidableEq

/-- Any exception the embedded code can raise: a `DataMapperError`, a
`KeyError` from an unguarded dictionary subscript (carrying the missing
key, `none` for Python `None`), a `TypeError` from a call with the wrong
number of arguments, or an `AttributeError`. -/
inductive PyError where
  | dm (e : DMError)
  | keyError (key : Option String)
  | typeError
  | attrError
deriving DecidableEq

/-- The class-level state of `DatabaseRegistry`
(`src/data_mapper/database/registry.py`). -/
structure DBRegistryState where
  registered_databases : List (String × DatabaseClass)
  registered_profiles : List (String × DatabaseProfile)
  is_initialized : Bool
deriving DecidableEq

namespace DatabaseRegistry

/-- Embeds `DatabaseRegistry.clear`. -/
def clear (_s : DBRegistryState) : DBRegistryState :=
  { registered_databases := [], registered_profiles := [], is_initialized := false }

/-- Embeds `DatabaseRegistry.validate_database` (registry.py lines 180-214):
no database given (code 1), not a `Database` subclass (code 2), class
attribute `system` not a `DatabaseSystem` instance (code 3). -/
def validate_database (s : DBRegistryState) (database : Option DatabaseClass)
    (error_to_raise : ErrorKind) : Except PyError DatabaseClass × DBRegistryState :=
  match database with
  | none => (.error (.dm ⟨error_to_raise, 1⟩), s)
  | some d =>
      if !d.isDatabaseSubclass then (.error (.dm ⟨error_to_raise, 2⟩), s)
      else match d.system with
        | none => (.error (.dm ⟨error_to_raise, 3⟩), s)
        | some _ => (.ok d, s)

/-- Embeds `DatabaseRegistry.validate_profile` (registry.py lines 216-265):
no profile (code 1), not a `DatabaseProfile` instance (code 2), blank name
(code 3), blank system (code 4), lowercased-stripped system not a key of
`registered_databases` (code 5). -/
def validate_profile (s : DBRegistryState) (profile : Option PyObj)
    (error_to_raise : ErrorKind) : Except PyError DatabaseProfile × DBRegistryState :=
  match profile with
  | none => (.error (.dm ⟨error_to_raise, 1⟩), s)
  | some .other => (.error (.dm ⟨error_to_raise, 2⟩), s)
  | some (.profile p) =>
      if is_blank_opt p.name then (.error (.dm ⟨error_to_raise, 3⟩), s)
      else match p.system with
        | none => (.error (.dm ⟨error_to_raise, 4⟩), s)
        | some sys =>
            if pyIsBlankStr sys then (.error (.dm ⟨error_to_raise, 4⟩), s)
            else if (dictGet s.registered_databases (pyStrip (pyLower sys))).isSome then
              (.ok p, s)
            else (.error (.dm ⟨error_to_raise, 5⟩), s)

/-- Embeds `DatabaseRegistry.validate_profile_name` (registry.py lines
267-294): blank or absent name (code 1), name not a key of
`registered_profiles` (code 2). -/
def validate_profile_name (s : DBRegistryState) (name : Option String)
    (error_to_raise : ErrorKind) : Except PyError String × DBRegistryState :=
  match name with
  | none => (.error (.dm ⟨error_to_raise, 1⟩), s)
  | some nm =>
      if pyIsBlankStr nm then (.error (.dm ⟨error_to_raise, 1⟩), s)
      else if (dictGet s.registered_profiles nm).isSome then (.ok nm, s)
      else (.error (.dm ⟨error_to_raise, 2⟩), s)

/-- Embeds `DatabaseRegistry.register_database` (registry.py lines 68-82):
validates, then stores the class under `database.system.value.lower()`. -/
def register_database (s : DBRegistryState) (database : Option DatabaseClass) :
    Except PyError Unit × DBRegistryState :=
  match validate_database s database .registerDatabaseError with
  | (.error e, s₁) => (.error e, s₁)
  | (.ok d, s₁) =>
      match d.system with
      | none => (.error .attrError, s₁)
      | some sys =>
          (.ok (), { s₁ with
            registered_databases :=
              dictSet s₁.registered_databases (pyLower sys.value) d })

/-- Embeds `DatabaseRegistry.register_profile` (registry.py lines 84-97):
validates, then stores the profile under `profile.name`.  Validation
guarantees the name is a present, non-blank string, so the `getD`
fallback below is never exercised on the success path. -/
def register_profile (s : DBRegistryState) (profile : Option PyObj) :
    Except PyError Unit × DBRegistryState :=
  match validate_profile s profile .registerProfileError with
  | (.error e, s₁) => (.error e, s₁)
  | (.ok p, s₁) =>
      (.ok (), { s₁ with
        registered_profiles := dictSet s₁.registered_profiles (p.name.getD "") p })

/-- Embeds `DatabaseRegistry.get_profile` (registry.py lines 129-143):
validates the name, then returns `registered_profiles.get(profile_name)`
(an `Option`, as Python `.get` may in general return `None`). -/
def get_profile (s : DBRegistryState) (profile_name : Option String) :
    Except PyError (Option DatabaseProfile) × DBRegistryState :=
  match validate_profile_name s profile_name .getProfileError with
  | (.error e, s₁) => (.error e, s₁)
  | (.ok nm, s₁) => (.ok (dictGet s₁.registered_profiles nm), s₁)

/-- Embeds `DatabaseRegistry.get_first_registered_profile` (registry.py
lines 145-159): `GetProfileError` code 3 on an empty mapping, otherwise
the first value in insertion order. -/
def get_first_registered_profile (s : DBRegistryState) :
    Except PyError DatabaseProfile × DBRegistryState :=
  match s.registered_profiles with
  | [] => (.error (.dm ⟨.getProfileError, 3⟩), s)
  | kv :: _ => (.ok kv.2, s)

/-- Embeds `DatabaseRegistry.get_last_registered_profile` (registry.py
lines 161-175): `GetProfileError` code 3 on an empty mapping, otherwise
the last value in insertion order. -/
def get_last_registered_profile (s : DBRegistryState) :
    Except PyError DatabaseProfile × DBRegistryState :=
  match (dictValues s.registered_profiles).getLast? with
  | none => (.error (.dm ⟨.getProfileError, 3⟩), s)
  | some p => (.ok p, s)

/-- The final two statements of `DatabaseRegistry.get_database` (registry.py
lines 123-127): validate the resolved profile with `GetDatabaseError`,
then construct `cls.registered_databases[profile.system](profile)`.  The
subscript uses the raw `profile.system` string — no lowercasing or
stripping — so a miss there is a `KeyError`; the `none` system case is
unreachable after validation. -/
def get_database_core (s : DBRegistryState) (o : PyObj) :
    Except PyError DatabaseInstance × DBRegistryState :=
  match validate_profile s (some o) .getDatabaseError with
  | (.error e, s₃) => (.error e, s₃)
  | (.ok p, s₃) =>
      match p.system with
      | none => (.error (.keyError none), s₃)
      | some sys =>
          match dictGet s₃.registered_databases sys with
          | none => (.error (.keyError (some sys)), s₃)
          | some d => (.ok ⟨d, p⟩, s₃)

/-- The `if profile is None` fallback of `DatabaseRegistry.get_database`
(registry.py lines 119-121): when the resolved profile object is `None`,
fetch the last registered profile, then proceed to validation and
construction. -/
def get_database_fallback (s : DBRegistryState) (pobj : Option PyObj) :
    Except PyError DatabaseInstance × DBRegistryState :=
  match pobj with
  | none =>
      (match get_last_registered_profile s with
       | (.error e, s₂) => (.error e, s₂)
       | (.ok p, s₂) => get_database_core s₂ (.profile p))
  | some o => get_database_core s o

/-- Embeds `DatabaseRegistry.get_database` (registry.py lines 102-127).
When `profile_name` is not `None` the local `profile` variable is
overwritten by the `get_profile` result, so the `profile` argument is
never consulted in that branch. -/
def get_database (s : DBRegistryState) (profile_name : Option String)
    (profile : Option PyObj) : Except PyError DatabaseInstance × DBRegistryState :=
  match profile_name with
  | some nm =>
      (match get_profile s (some nm) with
       | (.error e, s₁) => (.error e, s₁)
       | (.ok popt, s₁) => get_database_fallback s₁ (popt.map PyObj.profile))
  | none => get_database_fallback s profile

end DatabaseRegistry

/-- One section of an INI profile configuration file: the optional string
values that `read_profiles_from_file` extracts via `section.get(...)`. -/
structure ProfileSection where
  system : Option String
  host : Option String
  port : Option String
  user : Option String
  password : Option String
  db : Option String
deriving DecidableEq

/-- Abstraction of the file named by `profiles_file_path` together with the
behaviour of `os.access` and `configparser` on it: whether the path exists
(`os.access(path, F_OK)`), whether it is readable (`os.access(path, R_OK)`),
whether `ConfigParser.read` raises (it does exactly when the file has
content before any section header, `MissingSectionHeaderError`; it accepts
an empty file, yielding no sections), and the parsed sections in file
order. -/
structure ProfilesFile where
  fileExists : Bool
  readable : Bool
  parseRaises : Bool
  sections : List (String × ProfileSection)
deriving DecidableEq

namespace DatabaseRegistry

/-- Embeds `DatabaseRegistry.read_profiles_from_file` (registry.py lines
299-358): missing path (code 1), unreadable path (code 2), parser
exception (code 3), otherwise one `DatabaseProfile` per section in file
order, named after the section. -/
def read_profiles_from_file (f : ProfilesFile) :
    Except PyError (List DatabaseProfile) :=
  if !f.fileExists then .error (.dm ⟨.parseProfileConfigFileError, 1⟩)
  else if !f.readable then .error (.dm ⟨.parseProfileConfigFileError, 2⟩)
  else if f.parseRaises then .error (.dm ⟨.parseProfileConfigFileError, 3⟩)
  else .ok (f.sections.map fun sec =>
    { name := some sec.1, system := sec.2.system, host := sec.2.host,
      port := sec.2.port, user := sec.2.user, password := sec.2.password,
      db := sec.2.db })

/-- Embeds the `for profile in profiles: cls.register_profile(profile)` loop
of `DatabaseRegistry.initialize`: registers in order, stopping at the
first raised error. -/
def register_profiles_loop (s : DBRegistryState) :
    List DatabaseProfile → Except PyError Unit × DBRegistryState
  | [] => (.ok (), s)
  | p :: rest =>
      match register_profile s (some (.profile p)) with
      | (.error e, s₁) => (.error e, s₁)
      | (.ok _, s₁) => register_profiles_loop s₁ rest

/-- The registry state after the unconditional first phase of
`DatabaseRegistry.initialize`: cleared, with the two built-in drivers
registered under their lowercased system strings. -/
def builtins_state : DBRegistryState :=
  { registered_databases := [("mysql", MySQLDatabase), ("sqlite", SQLiteDatabase)],
    registered_profiles := [],
    is_initialized := false }

/-- Embeds `DatabaseRegistry.initialize` (registry.py lines 38-63): clear,
register the built-in MySQL and SQLite drivers, then (when a path is
given) read and register the profiles from the file, and only after all
of that set `is_initialized`.  An exception propagates, leaving the state
as it was at the point of the raise. -/
def initialize_registry (s : DBRegistryState) (profiles_file : Option ProfilesFile) :
    Except PyError Unit × DBRegistryState :=
  match register_database (clear s) (some MySQLDatabase) with
  | (.error e, s₁) => (.error e, s₁)
  | (.ok _, s₁) =>
      match register_database s₁ (some SQLiteDatabase) with
      | (.error e, s₂) => (.error e, s₂)
      | (.ok _, s₂) =>
          match profiles_file with
          | none => (.ok (), { s₂ with is_initialized := true })
          | some f =>
              match read_profiles_from_file f with
              | .error e => (.error e, s₂)
              | .ok ps =>
                  match register_profiles_loop s₂ ps with
                  | (.error e, s₃) => (.error e, s₃)
                  | (.ok _, s₃) => (.ok (), { s₃ with is_initialized := true })

end DatabaseRegistry

/-- The `DatabaseStringField` descriptor of `src/data_mapper/database/fields.py`,
the representative concrete subclass of `DatabaseField` used throughout
the repository's tests. -/
structure DatabaseStringField where
  name : Option String
  default_value : Option String
  mandatory : Bool
  choices : Option (List String)
  min_length : Option Nat
  max_length : Option Nat
deriving DecidableEq

/-- Builds a string field from its name alone, every other constructor
argument left at its default, as in `DatabaseStringField("key")`. -/
def DatabaseStringField.ofName (nm : String) : DatabaseStringField :=
  ⟨some nm, none, false, none, none, none⟩

/-- A Python object appearing as a value of a fields dictionary: an instance
of a `DatabaseField` subclass, or any other object (the tests pass
strings); wrapped in `Option` at use sites for Python `None`. -/
inductive FieldObj where
  | dbField (f : DatabaseStringField)
  | otherObj
deriving DecidableEq

/-- A Python object appearing as a key of a fields dictionary: a string, an
int, or `None` (all hashable, all used by the tests). -/
inductive PyKey where
  | str (s : String)
  | intKey (n : Int)
  | noneKey
deriving DecidableEq

/-- A fields dictionary in insertion order; entries pair a key object with a
value object (`none` for Python `None`). -/
abbrev FieldsDict := List (PyKey × Option FieldObj)

/-- A Python object passed as the `db_fields` argument: a dict, or some
non-dict object such as a list; wrapped in `Option` at use sites for
Python `None`. -/
inductive FieldsVal where
  | notADict
  | dict (entries : FieldsDict)
deriving DecidableEq

/-- A Python object passed where a model class is expected: an object that
is not a class at all, or a class that is or is not a `Model` subclass
(identified by its class id); wrapped in `Option` for Python `None`. -/
inductive ModelArg where
  | notAClass
  | cls (classId : Nat) (isModelSubclass : Bool)
deriving DecidableEq

/-- An argument of a `Mapper(...)` call in `src/data_mapper/mapper/registry.py`:
the driver instance, or the fields dictionary. -/
inductive MapperCtorArg where
  | dbInstance (d : DatabaseInstance)
  | fieldsDict (entries : FieldsDict)
deriving DecidableEq

/-- The `Mapper` class of `src/data_mapper/mapper/base.py` (lines 60-62):
its `__init__(self, database)` takes exactly one argument besides `self`
and stores it as `database`; the class has no `database_fields`
attribute. -/
structure Mapper where
  database : MapperCtorArg
deriving DecidableEq

/-- Python call semantics for `Mapper(...)`: a call binds the positional
arguments to the parameters of `__init__`; since `Mapper.__init__` has
exactly one parameter besides `self`, a call with any other number of
arguments raises a `TypeError`. -/
def Mapper.call (args : List MapperCtorArg) : Except PyError Mapper :=
  match args with
  | [a] => .ok { database := a }
  | _ => .error .typeError

/-- The class-level state of `MapperRegistry`
(`src/data_mapper/mapper/registry.py`), keyed by the model class. -/
structure MapperRegistryState where
  registered_mappers : List (Nat × Mapper)
  is_initialized : Bool
deriving DecidableEq

namespace MapperRegistry

/-- Embeds `MapperRegistry.validate_model` (mapper/registry.py lines
108-142): no model (code 1), not a class (code 2), not a `Model`
subclass (code 3). -/
def validate_model (ms : MapperRegistryState) (model : Option ModelArg)
    (error_to_raise : ErrorKind) : Except PyError ModelArg × MapperRegistryState :=
  match model with
  | none => (.error (.dm ⟨error_to_raise, 1⟩), ms)
  | some .notAClass => (.error (.dm ⟨error_to_raise, 2⟩), ms)
  | some (.cls i sub) =>
      if !sub then (.error (.dm ⟨error_to_raise, 3⟩), ms)
      else (.ok (.cls i sub), ms)

/-- The per-entry checks of the `validate_fields` loop, in source order:
non-string key (code 6), blank string key (code 7), value not a
`DatabaseField` instance (code 8); `none` when the whole dictionary
passes. -/
def check_fields_entries : FieldsDict → Option Nat
  | [] => none
  | (k, v) :: rest =>
      match k with
      | .str nm =>
          if pyIsBlankStr nm then some 7
          else match v with
            | some (.dbField _) => check_fields_entries rest
            | _ => some 8
      | _ => some 6

/-- Embeds `MapperRegistry.validate_fields` (mapper/registry.py lines
144-201): `None` mapping (code 3), non-dict (code 4), empty dict
(code 5), then the per-entry checks in insertion order; on success the
dictionary is returned unchanged. -/
def validate_fields (ms : MapperRegistryState) (db_fields : Option FieldsVal)
    (error_to_raise : ErrorKind) : Except PyError FieldsDict × MapperRegistryState :=
  match db_fields with
  | none => (.error (.dm ⟨error_to_raise, 3⟩), ms)
  | some .notADict => (.error (.dm ⟨error_to_raise, 4⟩), ms)
  | some (.dict entries) =>
      if entries.isEmpty then (.error (.dm ⟨error_to_raise, 5⟩), ms)
      else match check_fields_entries entries with
        | some c => (.error (.dm ⟨error_to_raise, c⟩), ms)
        | none => (.ok entries, ms)

/-- Embeds the decorator returned by `MapperRegistry.register`
(mapper/registry.py lines 43-74) applied to `model`: validate the model
and the fields (both with `RegisterMapperError`), request a database
from the `DatabaseRegistry`, construct `Mapper(database, db_fields)` —
a two-argument call of the one-parameter constructor — store it under
the model, and return the model.  The result carries the mapper registry
state and the database registry state. -/
def register (ms : MapperRegistryState) (ds : DBRegistryState)
    (db_profile : Option PyObj) (db_profile_name : Option String)
    (db_fields : Option FieldsVal) (model : Option ModelArg) :
    Except PyError ModelArg × MapperRegistryState × DBRegistryState :=
  match validate_model ms model .registerMapperError with
  | (.error e, ms₁) => (.error e, ms₁, ds)
  | (.ok m, ms₁) =>
      match validate_fields ms₁ db_fields .registerMapperError with
      | (.error e, ms₂) => (.error e, ms₂, ds)
      | (.ok entries, ms₂) =>
          match DatabaseRegistry.get_database ds db_profile_name db_profile with
          | (.error e, ds₁) => (.error e, ms₂, ds₁)
          | (.ok database, ds₁) =>
              match Mapper.call [.dbInstance database, .fieldsDict entries] with
              | .error e => (.error e, ms₂, ds₁)
              | .ok mp =>
                  match m with
                  | .cls i _ =>
                      (.ok m,
                       { ms₂ with registered_mappers :=
                           dictSet ms₂.registered_mappers i mp },
                       ds₁)
                  | .notAClass => (.error .typeError, ms₂, ds₁)

/-- Embeds `MapperRegistry.get_mapper` (mapper/registry.py lines 79-103):
validate the model (with `GetMapperError`), then code 4 when no mapper
is registered for it, otherwise the stored mapper.  The `.notAClass`
fallback is unreachable: validation rejects non-classes with code 2. -/
def get_mapper (ms : MapperRegistryState) (model : Option ModelArg) :
    Except PyError Mapper × MapperRegistryState :=
  match validate_model ms model .getMapperError with
  | (.error e, ms₁) => (.error e, ms₁)
  | (.ok m, ms₁) =>
      match m with
      | .cls i _ =>
          match dictGet ms₁.registered_mappers i with
          | none => (.error (.dm ⟨.getMapperError, 4⟩), ms₁)
          | some mp => (.ok mp, ms₁)
      | .notAClass => (.error .typeError, ms₁)

end MapperRegistry

/-- Modelled from the spec: the failing rule, if any, of a single fields
entry, in rule order — non-string key (6), blank-string key (7), value
that is not a field descriptor (8). -/
def spec_entry_code (kv : PyKey × Option FieldObj) : Option Nat :=
  match kv.1 with
  | .str nm =>
      if pyIsBlankStr nm then some 7
      else match kv.2 with
        | some (.dbField _) => none
        | _ => some 8
  | _ => some 6

/-- Modelled from the spec: the code of the first failing `validateFields`
rule over the whole mapping — null mapping (3), non-mapping (4), empty
mapping (5), then the first per-entry failure in insertion order. -/
def spec_first_failing_code (db_fields : Option FieldsVal) : Option Nat :=
  match db_fields with
  | none => some 3
  | some .notADict => some 4
  | some (.dict entries) =>
      if entries = [] then some 5
      else entries.findSome? spec_entry_code

/-- The empty registry states from which the tests start. -/
def empty_db_state : DBRegistryState :=
  { registered_databases := [], registered_profiles := [], is_initialized := false }

/-- The empty mapper registry state. -/
def empty_mapper_state : MapperRegistryState :=
  { registered_mappers := [], is_initialized := false }

/-- The state after `DatabaseRegistry.initialize()` with no profiles file:
both built-in drivers registered, no profiles. -/
def fresh_db_state : DBRegistryState :=
  (DatabaseRegistry.initialize_registry empty_db_state none).2

/-- A valid profile whose system string `"sqlite"` matches the stored driver
key exactly. -/
def profile_sqlite : DatabaseProfile :=
  DatabaseProfile.mk₂ (some "Profile") (some "sqlite")

/-- The profile `DatabaseProfile("myprofile", system="mYsQl")` from the
repository's own case-insensitivity test. -/
def profile_mixed_case : DatabaseProfile :=
  DatabaseProfile.mk₂ (some "myprofile") (some "mYsQl")

/-- A valid profile with the uppercase system string `"MYSQL"`. -/
def profile_upper_mysql : DatabaseProfile :=
  DatabaseProfile.mk₂ (some "p") (some "MYSQL")

/-- An initialized registry holding `profile_upper_mysql` as its single (and
hence last) registered profile. -/
def state_with_upper_profile : DBRegistryState :=
  (DatabaseRegistry.register_profile fresh_db_state
    (some (.profile profile_upper_mysql))).2

/-- A valid profile named `"a"` with system `"sqlite"`. -/
def profile_a_sqlite : DatabaseProfile :=
  DatabaseProfile.mk₂ (some "a") (some "sqlite")

/-- An initialized registry holding `profile_a_sqlite` as its single
registered profile. -/
def state_with_sqlite_profile : DBRegistryState :=
  (DatabaseRegistry.register_profile fresh_db_state
    (some (.profile profile_a_sqlite))).2

/-- The fields dictionary of the repository's tests:
`{"key": DatabaseStringField("key")}`. -/
def fields_key : FieldsDict :=
  [(.str "key", some (.dbField (DatabaseStringField.ofName "key")))]

/-- An existing, readable, empty profiles file: `configparser` accepts it
(CPython raises `MissingSectionHeaderError` only when content precedes a
section header) and yields zero sections. -/
def empty_profiles_file : ProfilesFile :=
  { fileExists := true, readable := true, parseRaises := false, sections := [] }

/-- An existing, readable profiles file whose single section names the
unsupported system `"dummy"`, so registration of its profile fails. -/
def bad_profiles_file : ProfilesFile :=
  { fileExists := true, readable := true, parseRaises := false,
    sections := [("p", ⟨some "dummy", none, none, none, none, none⟩)] }

/-- Valid profiles used to exercise re-registration under one name. -/
def profile_n_mysql : DatabaseProfile :=
  DatabaseProfile.mk₂ (some "n") (some "mysql")

/-- A second, different profile carrying the same name `"n"`. -/
def profile_n_sqlite : DatabaseProfile :=
  DatabaseProfile.mk₂ (some "n") (some "sqlite")

/-- A valid profile with the distinct name `"q"`. -/
def profile_q_mysql : DatabaseProfile :=
  DatabaseProfile.mk₂ (some "q") (some "mysql")

/-- The registry after registering `profile_n_mysql` on the fresh state. -/
def c5_state₁ : DBRegistryState :=
  (DatabaseRegistry.register_profile fresh_db_state
    (some (.profile profile_n_mysql))).2

/-- The registry after additionally registering `profile_q_mysql`. -/
def c5_state₂ : DBRegistryState :=
  (DatabaseRegistry.register_profiles_loop c5_state₁ [profile_q_mysql]).2

/-- The registry after re-registering the name `"n"` with
`profile_n_sqlite`. -/
def c5_state₃ : DBRegistryState :=
  (DatabaseRegistry.register_profile c5_state₂
    (some (.profile profile_n_sqlite))).2

section Lemmas

open DatabaseRegistry MapperRegistry

/-- Updating a present key keeps the value at that key. -/
theorem dictGet_dictSet_self {κ α : Type} [DecidableEq κ]
    (d : List (κ × α)) (k : κ) (v : α) : dictGet (dictSet d k v) k = some v := by
  induction d with
  | nil => simp [dictSet, dictGet]
  | cons kv rest ih =>
      by_cases h : kv.1 = k
      · simp [dictSet, dictGet, h]
      · simpa [dictSet, dictGet, h] using ih

/-- Assignment never empties a dictionary. -/
theorem dictSet_ne_nil {κ α : Type} [DecidableEq κ]
    (d : List (κ × α)) (k : κ) (v : α) : dictSet d k v ≠ [] := by
  cases d with
  | nil => simp [dictSet]
  | cons kv rest => by_cases h : kv.1 = k <;> simp [dictSet, h]

/-- A key of the updated dictionary is an old key or the assigned key. -/
theorem mem_dictKeys_dictSet {κ α : Type} [DecidableEq κ]
    (d : List (κ × α)) (k₀ : κ) (v : α) (k : κ)
    (h : k ∈ dictKeys (dictSet d k₀ v)) : k ∈ dictKeys d ∨ k = k₀ := by
  induction d with
  | nil => simpa [dictSet, dictKeys] using h
  | cons kv rest ih =>
      by_cases hk : kv.1 = k₀
      · simp [dictSet, hk, dictKeys] at h
        rcases h with h | h
        · right; exact h
        · left; simp [dictKeys, h]
      · simp [dictSet, hk, dictKeys] at h
        rcases h with h | h
        · left; simp [dictKeys, h]
        · rcases ih (by simpa [dictKeys] using h) with h₁ | h₁
          · left; simp [dictKeys] at h₁ ⊢; exact Or.inr h₁
          · right; exact h₁

/-- The last entry of a nonempty list is unchanged by prepending. -/
theorem getLast?_cons_of_ne_nil {α : Type} (a : α) (l : List α) (h : l ≠ []) :
    (a :: l).getLast? = l.getLast? := by
  cases l with
  | nil => exact absurd rfl h
  | cons b t => simp [List.getLast?_cons_cons]

/-- Validators of the database registry never change the state (their Python
bodies contain no writes). -/
theorem validate_database_state (s : DBRegistryState) (d : Option DatabaseClass)
    (ek : ErrorKind) : (validate_database s d ek).2 = s := by
  unfold validate_database
  rcases d with _ | d
  · rfl
  · by_cases h : d.isDatabaseSubclass <;> rcases hs : d.system <;> simp [h, hs]

/-- Frame property of `validate_profile`: the state is returned unchanged. -/
theorem validate_profile_state (s : DBRegistryState) (o : Option PyObj)
    (ek : ErrorKind) : (validate_profile s o ek).2 = s := by
  unfold validate_profile
  rcases o with _ | o
  · rfl
  · cases o with
    | other => rfl
    | profile p =>
        by_cases h : is_blank_opt p.name
        · simp [h]
        · rcases hs : p.system with _ | sys
          · simp [h, hs]
          · by_cases hb : pyIsBlankStr sys <;>
              by_cases hg : (dictGet s.registered_databases (pyStrip (pyLower sys))).isSome <;>
              simp [h, hs, hb, hg]

/-- Frame property of `validate_profile_name`. -/
theorem validate_profile_name_state (s : DBRegistryState) (nm : Option String)
    (ek : ErrorKind) : (validate_profile_name s nm ek).2 = s := by
  unfold validate_profile_name
  rcases nm with _ | nm
  · rfl
  · by_cases h : pyIsBlankStr nm <;>
      by_cases hg : (dictGet s.registered_profiles nm).isSome <;> simp [h, hg]

/-- Frame property of `get_profile`. -/
theorem get_profile_state (s : DBRegistryState) (nm : Option String) :
    (get_profile s nm).2 = s := by
  unfold get_profile
  rcases h : validate_profile_name s nm .getProfileError with ⟨r, s₁⟩
  have hs₁ : s₁ = s := by
    have := validate_profile_name_state s nm .getProfileError
    rw [h] at this; exact this
  cases r <;> simp [h, hs₁]

/-- Frame property of `get_first_registered_profile`. -/
theorem get_first_registered_profile_state (s : DBRegistryState) :
    (get_first_registered_profile s).2 = s := by
  unfold get_first_registered_profile
  rcases s.registered_profiles with _ | ⟨kv, rest⟩ <;> rfl

/-- Frame property of `get_last_registered_profile`. -/
theorem get_last_registered_profile_state (s : DBRegistryState) :
    (get_last_registered_profile s).2 = s := by
  unfold get_last_registered_profile
  rcases h : (dictValues s.registered_profiles).getLast? <;> simp [h]

/-- Frame property of the validation-and-construction tail of
`get_database`. -/
theorem get_database_core_state (s : DBRegistryState) (o : PyObj) :
    (get_database_core s o).2 = s := by
  unfold get_database_core
  rcases hv : validate_profile s (some o) .getDatabaseError with ⟨rv, sv⟩
  have hsv : sv = s := by
    rw [← validate_profile_state s (some o) .getDatabaseError, hv]
  rw [hsv]
  cases rv with
  | error e => rfl
  | ok pp =>
      rcases hps : pp.system with _ | sys
      · simp [hps]
      · rcases hg : dictGet s.registered_databases sys with _ | D <;> simp [hps, hg]

/-- Frame property of the last-registered-profile fallback of
`get_database`. -/
theorem get_database_fallback_state (s : DBRegistryState) (pobj : Option PyObj) :
    (get_database_fallback s pobj).2 = s := by
  unfold get_database_fallback
  rcases pobj with _ | o
  · rcases hl : get_last_registered_profile s with ⟨rl, sl⟩
    have hsl : sl = s := by
      rw [← get_last_registered_profile_state s, hl]
    rw [hsl]
    cases rl with
    | error e => rfl
    | ok q => simpa using get_database_core_state s (.profile q)
  · simpa using get_database_core_state s o

/-- Frame property of `get_database`: resolution, validation and instance
construction read the registry but never write it. -/
theorem get_database_state (s : DBRegistryState) (pn : Option String)
    (p : Option PyObj) : (get_database s pn p).2 = s := by
  rcases pn with _ | nm
  · simpa [get_database] using get_database_fallback_state s p
  · simp only [get_database]
    rcases hp : get_profile s (some nm) with ⟨rp, sp⟩
    have hsp : sp = s := by
      rw [← get_profile_state s (some nm), hp]
    rw [hsp]
    cases rp with
    | error e => rfl
    | ok popt => simpa using get_database_fallback_state s (popt.map PyObj.profile)

/-- Frame property of `validate_model`. -/
theorem validate_model_state (ms : MapperRegistryState) (m : Option ModelArg)
    (ek : ErrorKind) : (validate_model ms m ek).2 = ms := by
  unfold validate_model
  rcases m with _ | m
  · rfl
  · cases m with
    | notAClass => rfl
    | cls i sub => cases sub <;> simp

/-- Frame property of `validate_fields`. -/
theorem validate_fields_state (ms : MapperRegistryState) (fs : Option FieldsVal)
    (ek : ErrorKind) : (validate_fields ms fs ek).2 = ms := by
  unfold validate_fields
  rcases fs with _ | fs
  · rfl
  · cases fs with
    | notADict => rfl
    | dict entries =>
        by_cases h : entries.isEmpty
        · simp [h]
        · rcases hc : check_fields_entries entries with _ | c <;> simp [h, hc]

/-- Frame property of `get_mapper`. -/
theorem get_mapper_state (ms : MapperRegistryState) (m : Option ModelArg) :
    (get_mapper ms m).2 = ms := by
  unfold get_mapper
  rcases hv : validate_model ms m .getMapperError with ⟨rv, ms₁⟩
  have hms : ms₁ = ms := by
    rw [← validate_model_state ms m .getMapperError, hv]
  rw [hms]
  cases rv with
  | error e => rfl
  | ok m₁ =>
      cases m₁ with
      | notAClass => rfl
      | cls i sub =>
          rcases hg : dictGet ms.registered_mappers i with _ | mp <;> simp [hg]

/-- Validating a non-`DatabaseProfile` object raises code 2. -/
theorem validate_profile_other (s : DBRegistryState) (ek : ErrorKind) :
    validate_profile s (some .other) ek = (.error (.dm ⟨ek, 2⟩), s) := rfl

/-- Validating an actual profile either succeeds, returning the profile
unchanged, or fails with one of the codes 3, 4, 5. -/
theorem validate_profile_profile_cases (s : DBRegistryState) (p : DatabaseProfile)
    (ek : ErrorKind) :
    validate_profile s (some (.profile p)) ek = (.ok p, s) ∨
    ∃ c, (c = 3 ∨ c = 4 ∨ c = 5) ∧
      validate_profile s (some (.profile p)) ek = (.error (.dm ⟨ek, c⟩), s) := by
  unfold validate_profile
  by_cases h₁ : is_blank_opt p.name
  · exact Or.inr ⟨3, Or.inl rfl, by simp [h₁]⟩
  · rcases hs : p.system with _ | sys
    · exact Or.inr ⟨4, Or.inr (Or.inl rfl), by simp [h₁, hs]⟩
    · by_cases h₂ : pyIsBlankStr sys
      · exact Or.inr ⟨4, Or.inr (Or.inl rfl), by simp [h₁, hs, h₂]⟩
      · by_cases h₃ : (dictGet s.registered_databases (pyStrip (pyLower sys))).isSome
        · exact Or.inl (by simp [h₁, hs, h₂, h₃])
        · exact Or.inr ⟨5, Or.inr (Or.inr rfl), by simp [h₁, hs, h₂, h₃]⟩

/-- Inversion of a successful profile validation: the argument itself is
returned, its name is a present non-blank string, its system is a present
non-blank string whose lowercased-stripped form is a registered key. -/
theorem validate_profile_ok_inv (s : DBRegistryState) (p : DatabaseProfile)
    (ek : ErrorKind) (pp : DatabaseProfile)
    (h : (validate_profile s (some (.profile p)) ek).1 = .ok pp) :
    pp = p ∧ is_blank_opt p.name = false ∧
    ∃ sys, p.system = some sys ∧ pyIsBlankStr sys = false ∧
      (dictGet s.registered_databases (pyStrip (pyLower sys))).isSome = true := by
  unfold validate_profile at h
  by_cases h₁ : is_blank_opt p.name
  · simp [h₁] at h
  · rcases hs : p.system with _ | sys
    · simp [h₁, hs] at h
    · by_cases h₂ : pyIsBlankStr sys
      · simp [h₁, hs, h₂] at h
      · by_cases h₃ : (dictGet s.registered_databases (pyStrip (pyLower sys))).isSome
        · refine ⟨?_, by simpa using h₁, sys, rfl, by simpa using h₂, h₃⟩
          simpa [h₁, hs, h₂, h₃] using h.symm
        · simp [h₁, hs, h₂, h₃] at h

/-- Every `DataMapperError` raised by validating a present profile object
carries the caller-specified kind and a code between 2 and 5. -/
theorem validate_profile_some_codes (s : DBRegistryState) (o : PyObj)
    (ek ek₂ : ErrorKind) (c : Nat)
    (h : (validate_profile s (some o) ek).1 = .error (.dm ⟨ek₂, c⟩)) :
    ek₂ = ek ∧ 2 ≤ c ∧ c ≤ 5 := by
  cases o with
  | other =>
      rw [validate_profile_other] at h
      simp at h
      obtain ⟨h₁, h₂⟩ := h
      exact ⟨h₁.symm, by omega⟩
  | profile p =>
      rcases validate_profile_profile_cases s p ek with hc | ⟨c₁, hc₁, hc⟩
      · rw [hc] at h; simp at h
      · rw [hc] at h
        simp at h
        obtain ⟨h₁, h₂⟩ := h
        subst h₁; subst h₂
        rcases hc₁ with rfl | rfl | rfl <;> exact ⟨rfl, by omega⟩

/-- The outcome of `get_profile` on a present name: a `GetProfileError` with
code 1 or 2, or a present registered profile (never `ok none`, since the
lookup is guarded by the membership validation). -/
theorem get_profile_cases (s : DBRegistryState) (nm : String) :
    (∃ c, (c = 1 ∨ c = 2) ∧
      get_profile s (some nm) = (.error (.dm ⟨.getProfileError, c⟩), s)) ∨
    (∃ q, dictGet s.registered_profiles nm = some q ∧
      get_profile s (some nm) = (.ok (some q), s)) := by
  by_cases hb : pyIsBlankStr nm
  · exact Or.inl ⟨1, Or.inl rfl, by simp [get_profile, validate_profile_name, hb]⟩
  · by_cases hg : (dictGet s.registered_profiles nm).isSome
    · obtain ⟨q, hq⟩ := Option.isSome_iff_exists.mp hg
      exact Or.inr ⟨q, hq, by simp [get_profile, validate_profile_name, hb, hg, hq]⟩
    · exact Or.inl ⟨2, Or.inr rfl, by simp [get_profile, validate_profile_name, hb, hg]⟩

/-- The outcome of `get_last_registered_profile`: code 3 on an empty profile
mapping, otherwise the last registered profile. -/
theorem get_last_registered_profile_cases (s : DBRegistryState) :
    (s.registered_profiles = [] ∧
      get_last_registered_profile s = (.error (.dm ⟨.getProfileError, 3⟩), s)) ∨
    (∃ q, (dictValues s.registered_profiles).getLast? = some q ∧
      get_last_registered_profile s = (.ok q, s)) := by
  rcases hl : (dictValues s.registered_profiles).getLast? with _ | q
  · refine Or.inl ⟨?_, by simp [get_last_registered_profile, hl]⟩
    rcases hsp : s.registered_profiles with _ | ⟨kv, rest⟩
    · rfl
    · rw [hsp] at hl
      simp [dictValues] at hl
  · exact Or.inr ⟨q, rfl, by simp [get_last_registered_profile, hl]⟩

/-- Inversion of a successful profile registration: the profile has a
present non-blank name and the new state assigns the profile to that name
in the profiles dictionary, everything else unchanged. -/
theorem register_profile_ok_shape (s : DBRegistryState) (p : DatabaseProfile)
    (h : (register_profile s (some (.profile p))).1 = .ok ()) :
    ∃ nm, p.name = some nm ∧ pyIsBlankStr nm = false ∧
      (register_profile s (some (.profile p))).2 =
        { s with registered_profiles := dictSet s.registered_profiles nm p } := by
  unfold register_profile at h ⊢
  rcases hv : validate_profile s (some (.profile p)) .registerProfileError with ⟨rv, sv⟩
  have hsv : sv = s := by
    rw [← validate_profile_state s (some (.profile p)) .registerProfileError, hv]
  cases rv with
  | error e => simp [hv] at h
  | ok pp =>
      have hinv := validate_profile_ok_inv s p .registerProfileError pp (by rw [hv])
      obtain ⟨hpp, hname, -⟩ := hinv
      rcases hn : p.name with _ | nm
      · rw [hn] at hname; simp [is_blank_opt] at hname
      · refine ⟨nm, rfl, ?_, ?_⟩
        · rw [hn] at hname; simpa [is_blank_opt] using hname
        · subst hpp; simp [hv, hsv, hn]

/-- Registration never touches the databases dictionary or the
initialization flag. -/
theorem register_profile_dbs_flag (s : DBRegistryState) (o : Option PyObj) :
    (register_profile s o).2.registered_databases = s.registered_databases ∧
    (register_profile s o).2.is_initialized = s.is_initialized := by
  unfold register_profile
  rcases hv : validate_profile s o .registerProfileError with ⟨rv, sv⟩
  have hsv : sv = s := by
    rw [← validate_profile_state s o .registerProfileError, hv]
  cases rv <;> simp [hsv]

/-- A failed registration leaves the whole state unchanged (validation
precedes the dictionary write). -/
theorem register_profile_error_state (s : DBRegistryState) (o : Option PyObj)
    (e : PyError) (h : (register_profile s o).1 = .error e) :
    (register_profile s o).2 = s := by
  unfold register_profile at h ⊢
  rcases hv : validate_profile s o .registerProfileError with ⟨rv, sv⟩
  have hsv : sv = s := by
    rw [← validate_profile_state s o .registerProfileError, hv]
  cases rv with
  | error e₁ => simpa using hsv
  | ok pp => simp [hv] at h

/-- The unconditional first phase of `initialize` (clear plus registration
of the two built-in drivers) always succeeds and is independent of the
previous state, so `initialize_registry` reduces to the profile phase
started from `builtins_state`. -/
theorem initialize_registry_eq (s : DBRegistryState) (f : Option ProfilesFile) :
    initialize_registry s f =
      match f with
      | none => (.ok (), { builtins_state with is_initialized := true })
      | some file =>
          match read_profiles_from_file file with
          | .error e => (.error e, builtins_state)
          | .ok ps =>
              match register_profiles_loop builtins_state ps with
              | (.error e, s₃) => (.error e, s₃)
              | (.ok _, s₃) => (.ok (), { s₃ with is_initialized := true }) := rfl

/-- Specialization of the previous equation to a present profiles file. -/
theorem initialize_registry_some_eq (s : DBRegistryState) (f : ProfilesFile) :
    initialize_registry s (some f) =
      match read_profiles_from_file f with
      | .error e => (.error e, builtins_state)
      | .ok ps =>
          match register_profiles_loop builtins_state ps with
          | (.error e, s₃) => (.error e, s₃)
          | (.ok _, s₃) => (.ok (), { s₃ with is_initialized := true }) := rfl

/-- The registration loop never touches the databases dictionary or the
initialization flag. -/
theorem register_profiles_loop_dbs_flag (ps : List DatabaseProfile) :
    ∀ s : DBRegistryState,
      (register_profiles_loop s ps).2.registered_databases = s.registered_databases ∧
      (register_profiles_loop s ps).2.is_initialized = s.is_initialized := by
  induction ps with
  | nil => intro s; exact ⟨rfl, rfl⟩
  | cons p rest ih =>
      intro s
      simp only [register_profiles_loop]
      rcases hr : register_profile s (some (.profile p)) with ⟨r, s₁⟩
      have hd := register_profile_dbs_flag s (some (.profile p))
      rw [hr] at hd
      cases r with
      | error e => exact hd
      | ok u => exact ⟨(ih s₁).1.trans hd.1, (ih s₁).2.trans hd.2⟩

/-- A failing registration loop ends in the state reached by registering
exactly the profiles before the failing one (a proper prefix of the
input, each member of which registered successfully). -/
theorem register_profiles_loop_error_take (ps : List DatabaseProfile) :
    ∀ (s : DBRegistryState) (e : PyError),
      (register_profiles_loop s ps).1 = .error e →
      ∃ k, k < ps.length ∧ (register_profiles_loop s (ps.take k)).1 = .ok () ∧
        (register_profiles_loop s ps).2 = (register_profiles_loop s (ps.take k)).2 := by
  induction ps with
  | nil => intro s e h; simp [register_profiles_loop] at h
  | cons p rest ih =>
      intro s e h
      rcases hr : register_profile s (some (.profile p)) with ⟨r, s₁⟩
      cases r with
      | error e₁ =>
          have hs₁ : s₁ = s := by
            have := register_profile_error_state s (some (.profile p)) e₁ (by rw [hr])
            rw [hr] at this; exact this
          refine ⟨0, by simp, by simp [register_profiles_loop], ?_⟩
          simp [register_profiles_loop, hr, hs₁]
      | ok u =>
          have h₂ : (register_profiles_loop s₁ rest).1 = .error e := by
            simpa [register_profiles_loop, hr] using h
          obtain ⟨k, hk, hok, hst⟩ := ih s₁ e h₂
          refine ⟨k + 1, by simpa using Nat.succ_lt_succ hk, ?_, ?_⟩
          · simpa [register_profiles_loop, hr] using hok
          · simpa [register_profiles_loop, hr] using hst

/-- A successful registration loop whose profiles all avoid the name `n`
keeps the head entry `(n, p)` of the profiles dictionary in place, keeps
every other key different from `n`, and leaves the tail untouched when
the loop input is empty and nonempty when it is not. -/
theorem register_profiles_loop_shape (Qs : List DatabaseProfile) :
    ∀ (s : DBRegistryState) (n : String) (p : DatabaseProfile)
      (t : List (String × DatabaseProfile)),
      s.registered_profiles = (n, p) :: t →
      (∀ k ∈ dictKeys t, k ≠ n) →
      (∀ q ∈ Qs, q.name ≠ some n) →
      (register_profiles_loop s Qs).1 = .ok () →
      ∃ t₂, (register_profiles_loop s Qs).2.registered_profiles = (n, p) :: t₂ ∧
        (∀ k ∈ dictKeys t₂, k ≠ n) ∧ (Qs = [] → t₂ = t) ∧ (Qs ≠ [] → t₂ ≠ []) := by
  induction Qs with
  | nil =>
      intro s n p t hs ht hq hok
      exact ⟨t, hs, ht, fun _ => rfl, fun hne => absurd rfl hne⟩
  | cons q rest ih =>
      intro s n p t hs ht hq hok
      rcases hr : register_profile s (some (.profile q)) with ⟨r, s₁⟩
      cases r with
      | error e => simp [register_profiles_loop, hr] at hok
      | ok u =>
          obtain ⟨nm, hnm, hnb, hstate⟩ := register_profile_ok_shape s q (by rw [hr])
          rw [hr] at hstate
          simp only [] at hstate
          have hnmne : nm ≠ n := by
            intro hcontra
            exact hq q (List.mem_cons_self q rest) (by rw [hnm, hcontra])
          have hs₁ : s₁.registered_profiles = (n, p) :: dictSet t nm q := by
            rw [hstate]
            simp [hs, dictSet, Ne.symm hnmne]
          have ht₁ : ∀ k ∈ dictKeys (dictSet t nm q), k ≠ n := by
            intro k hk
            rcases mem_dictKeys_dictSet t nm q k hk with hk₁ | hk₁
            · exact ht k hk₁
            · rw [hk₁]; exact hnmne
          have hq₁ : ∀ q₁ ∈ rest, q₁.name ≠ some n :=
            fun q₁ hmem => hq q₁ (List.mem_cons_of_mem q hmem)
          have hok₁ : (register_profiles_loop s₁ rest).1 = .ok () := by
            simpa [register_profiles_loop, hr] using hok
          obtain ⟨t₂, h₁, h₂, h₃, h₄⟩ := ih s₁ n p (dictSet t nm q) hs₁ ht₁ hq₁ hok₁
          refine ⟨t₂, ?_, h₂, fun hcontra => by simp at hcontra, fun _ => ?_⟩
          · simpa [register_profiles_loop, hr] using h₁
          · rcases Decidable.em (rest = []) with hrn | hrn
            · rw [h₃ hrn]; exact dictSet_ne_nil t nm q
            · exact h₄ hrn

/-- Every `DataMapperError` raised by the validation-and-construction tail
of `get_database` is a `GetDatabaseError` with a code between 2 and 5
(the remaining failure mode there is a `KeyError`, not a
`DataMapperError`). -/
theorem get_database_core_dm_codes (s : DBRegistryState) (o : PyObj)
    (ek₂ : ErrorKind) (c : Nat)
    (h : (get_database_core s o).1 = .error (.dm ⟨ek₂, c⟩)) :
    ek₂ = .getDatabaseError ∧ 2 ≤ c ∧ c ≤ 5 := by
  unfold get_database_core at h
  rcases hv : validate_profile s (some o) .getDatabaseError with ⟨rv, sv⟩
  rw [hv] at h
  cases rv with
  | error e =>
      simp at h
      have := validate_profile_some_codes s o .getDatabaseError ek₂ c
        (by rw [hv, h])
      exact this
  | ok pp =>
      rcases hps : pp.system with _ | sys
      · simp [hps] at h
      · rcases hg : dictGet sv.registered_databases sys with _ | D <;>
          simp [hps, hg] at h

/-- Every `GetDatabaseError` raised by the fallback phase of `get_database`
carries a code between 2 and 5. -/
theorem get_database_fallback_gdb_codes (s : DBRegistryState)
    (pobj : Option PyObj) (c : Nat)
    (h : (get_database_fallback s pobj).1 =
      .error (.dm ⟨.getDatabaseError, c⟩)) : 2 ≤ c ∧ c ≤ 5 := by
  unfold get_database_fallback at h
  rcases pobj with _ | o
  · rcases get_last_registered_profile_cases s with ⟨hemp, hl⟩ | ⟨q, hq, hl⟩
    · rw [hl] at h; simp at h
    · rw [hl] at h
      simp at h
      exact (get_database_core_dm_codes s (.profile q) .getDatabaseError c h).2
  · exact (get_database_core_dm_codes s o .getDatabaseError c h).2

/-- The per-entry loop of `validate_fields` computes exactly the first
per-entry failure in insertion order. -/
theorem check_fields_entries_eq_findSome (entries : FieldsDict) :
    check_fields_entries entries = entries.findSome? spec_entry_code := by
  induction entries with
  | nil => rfl
  | cons kv rest ih =>
      rcases kv with ⟨k, v⟩
      cases k with
      | str nm =>
          by_cases hb : pyIsBlankStr nm
          · simp [check_fields_entries, List.findSome?_cons, spec_entry_code, hb]
          · rcases v with _ | fo
            · simp [check_fields_entries, List.findSome?_cons, spec_entry_code, hb]
            · cases fo with
              | dbField f =>
                  simpa [check_fields_entries, List.findSome?_cons,
                    spec_entry_code, hb] using ih
              | otherObj =>
                  simp [check_fields_entries, List.findSome?_cons,
                    spec_entry_code, hb]
      | intKey n => simp [check_fields_entries, List.findSome?_cons, spec_entry_code]
      | noneKey => simp [check_fields_entries, List.findSome?_cons, spec_entry_code]

end Lemmas

section Claims

open DatabaseRegistry MapperRegistry

/-- C1: the claimed round-trip of mapper registration fails on the code.
At a fully valid input — a `Model` subclass, the non-empty fields dict
`{"key": DatabaseStringField("key")}`, and a profile resolving to the
registered SQLite driver — the model and fields validate, the database
resolves, yet applying the binder raises a `TypeError`, because
`Mapper.__init__` in `mapper/base.py` takes only `database` while
`mapper/registry.py` calls `Mapper(database, db_fields)`; no mapper is
registered, so no subsequent `get_mapper` round-trip can succeed. -/
theorem C1_register_roundtrip_raises_typeError :
    (MapperRegistry.register empty_mapper_state fresh_db_state
        (some (.profile profile_sqlite)) none (some (.dict fields_key))
        (some (.cls 0 true))).1 = .error .typeError
  ∧ (DatabaseRegistry.get_database fresh_db_state none
        (some (.profile profile_sqlite))).1 = .ok ⟨SQLiteDatabase, profile_sqlite⟩
  ∧ (MapperRegistry.validate_fields empty_mapper_state (some (.dict fields_key))
        .registerMapperError).1 = .ok fields_key
  ∧ (MapperRegistry.register empty_mapper_state fresh_db_state
        (some (.profile profile_sqlite)) none (some (.dict fields_key))
        (some (.cls 0 true))).2.1.registered_mappers = []
  ∧ Mapper.call [.dbInstance ⟨SQLiteDatabase, profile_sqlite⟩, .fieldsDict fields_key]
      = .error .typeError :=
  ⟨rfl, rfl, rfl, rfl, rfl⟩

/-- C2: case-insensitive system matching holds for validation but not for
construction.  The profile `DatabaseProfile("myprofile", system="mYsQl")`
passes profile validation against the initialized registry (which stores
the MySQL driver under `"mysql"`) and even registers successfully, but
`get_database` subscripts the driver dictionary with the raw string
`"mYsQl"` and raises a `KeyError` instead of constructing a
`MySQLDatabase` instance. -/
theorem C2_case_insensitive_lookup_raises_keyError :
    (DatabaseRegistry.validate_profile fresh_db_state
        (some (.profile profile_mixed_case)) .getDatabaseError).1
      = .ok profile_mixed_case
  ∧ (DatabaseRegistry.register_profile fresh_db_state
        (some (.profile profile_mixed_case))).1 = .ok ()
  ∧ (DatabaseRegistry.get_database fresh_db_state none
        (some (.profile profile_mixed_case))).1
      = .error (.keyError (some "mYsQl")) :=
  ⟨rfl, rfl, rfl⟩

/-- C3: absolute precedence of `profile_name` in `get_database` — when a
name is supplied the `profile` argument is ignored entirely, a blank name
fails with `GetProfileError` code 1, and a non-blank unregistered name
fails with `GetProfileError` code 2. -/
theorem C3_profile_name_absolute_precedence
    (s : DBRegistryState) (nm : String) (pobj : Option PyObj) :
    (∀ pobj₂, DatabaseRegistry.get_database s (some nm) pobj
        = DatabaseRegistry.get_database s (some nm) pobj₂)
  ∧ (pyIsBlankStr nm = true →
      (DatabaseRegistry.get_database s (some nm) pobj).1
        = .error (.dm ⟨.getProfileError, 1⟩))
  ∧ (pyIsBlankStr nm = false → dictGet s.registered_profiles nm = none →
      (DatabaseRegistry.get_database s (some nm) pobj).1
        = .error (.dm ⟨.getProfileError, 2⟩)) := by
  refine ⟨fun pobj₂ => rfl, ?_, ?_⟩
  · intro hb
    simp [get_database, get_profile, validate_profile_name, hb]
  · intro hb hg
    simp [get_database, get_profile, validate_profile_name, hb, hg]

/-- Witness for C3 at the blank name `" "` and the unregistered name `"x"`,
each with a profile object also supplied. -/
theorem C3_witness :
    (DatabaseRegistry.get_database empty_db_state (some " ") (some .other)).1
      = .error (.dm ⟨.getProfileError, 1⟩)
  ∧ (DatabaseRegistry.get_database empty_db_state (some "x") (some .other)).1
      = .error (.dm ⟨.getProfileError, 2⟩) :=
  ⟨(C3_profile_name_absolute_precedence empty_db_state " " (some .other)).2.1 rfl,
   (C3_profile_name_absolute_precedence empty_db_state "x" (some .other)).2.2 rfl rfl⟩

/-- C4: contrary to the claim (and to the source's own comment that
`config_parser.read()` ensures at least one section), an existing,
readable, empty profiles file is not rejected with
`ParseProfileConfigFileError` code 3: `read_profiles_from_file` returns
zero profiles and `initialize` succeeds, marking the registry
initialized with no registered profiles. -/
theorem C4_empty_profiles_file_accepted :
    DatabaseRegistry.read_profiles_from_file empty_profiles_file = .ok []
  ∧ (DatabaseRegistry.initialize_registry empty_db_state
        (some empty_profiles_file)).1 = .ok ()
  ∧ (DatabaseRegistry.initialize_registry empty_db_state
        (some empty_profiles_file)).2
      = { builtins_state with is_initialized := true } :=
  ⟨rfl, rfl, rfl⟩

/-- C5: re-registration under an existing name replaces the value at lookup
but keeps the name's original insertion slot.  Starting from an empty
profile mapping, after registering `P₁` under the name `n`, then any
further profiles with other names, then `P₂` under `n` again: lookup of
`n` yields `P₂`, the key order is unchanged by the re-registration, the
first registered profile is now `P₂` (slot 0 still belongs to `n`), and
when other profiles were registered in between the last registered
profile is unaffected by the re-registration. -/
theorem C5_reregistration_keeps_slot
    (s s₁ s₂ s₃ : DBRegistryState) (P₁ P₂ : DatabaseProfile)
    (Qs : List DatabaseProfile) (n : String)
    (hs : s.registered_profiles = [])
    (hn₁ : P₁.name = some n) (hn₂ : P₂.name = some n)
    (hQ : ∀ q ∈ Qs, q.name ≠ some n)
    (hs₁ : s₁ = (register_profile s (some (.profile P₁))).2)
    (h₁ : (register_profile s (some (.profile P₁))).1 = .ok ())
    (hs₂ : s₂ = (register_profiles_loop s₁ Qs).2)
    (hloop : (register_profiles_loop s₁ Qs).1 = .ok ())
    (hs₃ : s₃ = (register_profile s₂ (some (.profile P₂))).2)
    (h₂ : (register_profile s₂ (some (.profile P₂))).1 = .ok ()) :
    dictGet s₃.registered_profiles n = some P₂
  ∧ dictKeys s₃.registered_profiles = dictKeys s₂.registered_profiles
  ∧ (get_first_registered_profile s₃).1 = .ok P₂
  ∧ (Qs ≠ [] →
      (get_last_registered_profile s₃).1 = (get_last_registered_profile s₂).1) := by
  obtain ⟨nm₁, hnm₁, hb₁, hst₁⟩ := register_profile_ok_shape s P₁ h₁
  have hnm₁n : nm₁ = n := by
    rw [hn₁] at hnm₁; exact (Option.some.inj hnm₁).symm
  have hprof₁ : s₁.registered_profiles = [(n, P₁)] := by
    rw [hs₁, hst₁]; simp [hs, dictSet, hnm₁n]
  obtain ⟨t₂, hsh₁, hsh₂, hsh₃, hsh₄⟩ :=
    register_profiles_loop_shape Qs s₁ n P₁ [] hprof₁ (by simp [dictKeys]) hQ hloop
  have hprof₂ : s₂.registered_profiles = (n, P₁) :: t₂ := by
    rw [hs₂]; exact hsh₁
  obtain ⟨nm₃, hnm₃, hb₃, hst₃⟩ := register_profile_ok_shape s₂ P₂ h₂
  have hnm₃n : nm₃ = n := by
    rw [hn₂] at hnm₃; exact (Option.some.inj hnm₃).symm
  have hprof₃ : s₃.registered_profiles = (n, P₂) :: t₂ := by
    rw [hs₃, hst₃]
    simp [hprof₂, dictSet, hnm₃n]
  refine ⟨?_, ?_, ?_, ?_⟩
  · rw [hprof₃]; simp [dictGet]
  · rw [hprof₃, hprof₂]; simp [dictKeys]
  · simp [get_first_registered_profile, hprof₃]
  · intro hQne
    have ht₂ne : t₂ ≠ [] := hsh₄ hQne
    have hvne : t₂.map Prod.snd ≠ [] := by
      intro hcontra; exact ht₂ne (by simpa using hcontra)
    unfold get_last_registered_profile
    rw [hprof₃, hprof₂]
    simp only [dictValues, List.map_cons]
    rw [getLast?_cons_of_ne_nil P₂ (t₂.map Prod.snd) hvne,
        getLast?_cons_of_ne_nil P₁ (t₂.map Prod.snd) hvne]
    cases (t₂.map Prod.snd).getLast? <;> rfl

/-- Witness for C5: on the fresh registry, register `("n", mysql)`, then
`("q", mysql)`, then `("n", sqlite)`; lookup of `"n"` yields the sqlite
profile, which also sits in the first slot, while the last registered
profile is still the one named `"q"`. -/
theorem C5_witness :
    dictGet c5_state₃.registered_profiles "n" = some profile_n_sqlite
  ∧ (get_first_registered_profile c5_state₃).1 = .ok profile_n_sqlite
  ∧ (get_last_registered_profile c5_state₃).1
      = (get_last_registered_profile c5_state₂).1 :=
  have h := C5_reregistration_keeps_slot fresh_db_state c5_state₁ c5_state₂
    c5_state₃ profile_n_mysql profile_n_sqlite [profile_q_mysql] "n"
    rfl rfl rfl (by decide) rfl rfl rfl rfl rfl rfl
  ⟨h.1, h.2.2.1, h.2.2.2 (by decide)⟩

/-- C6 counterexample: the claim fails as stated.  On the initialized
registry, the valid profile `("p", system="MYSQL")` registers
successfully and is the last (only) registered profile, yet
`get_database()` with no arguments raises `KeyError("MYSQL")` instead of
returning a driver instance, because the driver lookup uses the raw
system string while the driver is stored under `"mysql"`. -/
theorem C6_counterexample_upper_system :
    (DatabaseRegistry.register_profile fresh_db_state
        (some (.profile profile_upper_mysql))).1 = .ok ()
  ∧ (get_last_registered_profile state_with_upper_profile).1
      = .ok profile_upper_mysql
  ∧ (DatabaseRegistry.get_database state_with_upper_profile none none).1
      = .error (.keyError (some "MYSQL")) :=
  ⟨rfl, rfl, rfl⟩

/-- C6 as amended: with no arguments, `get_database` resolves the last
registered profile `p`, and — provided `p`'s raw system string is itself
a key of the driver mapping (the stored keys are lowercased, so e.g.
exactly `"mysql"`) — returns a driver instance of the registered class
constructed from `p`. -/
theorem C6_default_resolution_picks_last
    (s : DBRegistryState) (p : DatabaseProfile) (sys : String) (D : DatabaseClass)
    (hlast : (dictValues s.registered_profiles).getLast? = some p)
    (hname : is_blank_opt p.name = false)
    (hsys : p.system = some sys)
    (hblank : pyIsBlankStr sys = false)
    (hval : (dictGet s.registered_databases (pyStrip (pyLower sys))).isSome = true)
    (hraw : dictGet s.registered_databases sys = some D) :
    DatabaseRegistry.get_database s none none = (.ok ⟨D, p⟩, s) := by
  simp [get_database, get_database_fallback, get_last_registered_profile, hlast,
        get_database_core, validate_profile, hname, hsys, hblank, hval, hraw]

/-- Witness for C6 (amended): with the single registered profile
`("a", "sqlite")`, the parameterless `get_database` returns an
`SQLiteDatabase` instance wrapping that profile. -/
theorem C6_witness :
    DatabaseRegistry.get_database state_with_sqlite_profile none none
      = (.ok ⟨SQLiteDatabase, profile_a_sqlite⟩, state_with_sqlite_profile) :=
  C6_default_resolution_picks_last state_with_sqlite_profile profile_a_sqlite
    "sqlite" SQLiteDatabase rfl rfl rfl rfl rfl rfl

/-- C7: `validate_fields` raises the caller-specified error kind carrying
the code of the first failing rule — 3 for a `None` mapping, 4 for a
non-dict, 5 for an empty dict, then per entry in insertion order 6 for a
non-string key, 7 for a blank string key, 8 for a non-`DatabaseField`
value — and returns the mapping unchanged when no rule fails. -/
theorem C7_validate_fields_first_failing_rule
    (ms : MapperRegistryState) (fs : Option FieldsVal) (ek : ErrorKind) :
    (∀ c, spec_first_failing_code fs = some c →
      MapperRegistry.validate_fields ms fs ek = (.error (.dm ⟨ek, c⟩), ms))
  ∧ (spec_first_failing_code fs = none →
      ∃ entries, fs = some (.dict entries) ∧
        MapperRegistry.validate_fields ms fs ek = (.ok entries, ms)) := by
  rcases fs with _ | fv
  · constructor
    · intro c hc
      simp [spec_first_failing_code] at hc
      simp [validate_fields, ← hc]
    · intro hc; simp [spec_first_failing_code] at hc
  · cases fv with
    | notADict =>
        constructor
        · intro c hc
          simp [spec_first_failing_code] at hc
          simp [validate_fields, ← hc]
        · intro hc; simp [spec_first_failing_code] at hc
    | dict entries =>
        by_cases he : entries = []
        · subst he
          constructor
          · intro c hc
            simp [spec_first_failing_code] at hc
            simp [validate_fields, ← hc]
          · intro hc; simp [spec_first_failing_code] at hc
        · constructor
          · intro c hc
            simp [spec_first_failing_code, he] at hc
            simp [validate_fields, he, check_fields_entries_eq_findSome, hc]
          · intro hc
            simp only [spec_first_failing_code] at hc
            rw [if_neg he] at hc
            exact ⟨entries, rfl,
              by simp [validate_fields, he, check_fields_entries_eq_findSome, hc]⟩

/-- Witness for C7 at the `None` mapping: code 3 with the caller-specified
`RegisterMapperError` kind. -/
theorem C7_witness :
    MapperRegistry.validate_fields empty_mapper_state none .registerMapperError
      = (.error (.dm ⟨.registerMapperError, 3⟩), empty_mapper_state) :=
  (C7_validate_fields_first_failing_rule empty_mapper_state none
    .registerMapperError).1 3 rfl

/-- C8: in every registry state, `get_database` raises `GetDatabaseError`
only with codes 2 through 5 — the code-1 branch of its internal profile
validation is unreachable, because the profile variable is never `None`
at the validation site (a given name resolves to a registered profile
and the no-argument fallback either raises `GetProfileError` code 3 or
yields a registered profile). -/
theorem C8_get_database_error_codes
    (s : DBRegistryState) (pn : Option String) (p : Option PyObj) (c : Nat)
    (h : (DatabaseRegistry.get_database s pn p).1 =
      .error (.dm ⟨.getDatabaseError, c⟩)) :
    2 ≤ c ∧ c ≤ 5 := by
  rcases pn with _ | nm
  · exact get_database_fallback_gdb_codes s p c (by simpa [get_database] using h)
  · rcases get_profile_cases s nm with ⟨c₁, hc₁, hp⟩ | ⟨q, hq, hp⟩
    · rw [show DatabaseRegistry.get_database s (some nm) p =
          (match get_profile s (some nm) with
           | (.error e, s₁) => (.error e, s₁)
           | (.ok popt, s₁) => get_database_fallback s₁ (popt.map PyObj.profile))
          from rfl, hp] at h
      simp at h
    · rw [show DatabaseRegistry.get_database s (some nm) p =
          (match get_profile s (some nm) with
           | (.error e, s₁) => (.error e, s₁)
           | (.ok popt, s₁) => get_database_fallback s₁ (popt.map PyObj.profile))
          from rfl, hp] at h
      simp only [Option.map_some] at h
      exact get_database_fallback_gdb_codes s (some (.profile q)) c h

/-- Witness for C8: on the empty registry, passing a non-profile object
yields `GetDatabaseError` code 2, and indeed 2 lies within 2..5. -/
theorem C8_witness : 2 ≤ 2 ∧ 2 ≤ 5 :=
  C8_get_database_error_codes empty_db_state none (some .other) 2 rfl

/-- C9: `initialize` is not atomic on failure.  Whenever
`initialize(profiles_file_path)` raises, afterwards the initialization
flag is false while the built-in MySQL and SQLite drivers remain
registered, and the registered profiles are exactly those of the
successfully registered prefix of the file's profiles (none when reading
the file itself failed). -/
theorem C9_initialize_not_atomic
    (s : DBRegistryState) (f : ProfilesFile) (e : PyError)
    (h : (DatabaseRegistry.initialize_registry s (some f)).1 = .error e) :
    (DatabaseRegistry.initialize_registry s (some f)).2.is_initialized = false
  ∧ dictGet (DatabaseRegistry.initialize_registry s (some f)).2.registered_databases
      "mysql" = some MySQLDatabase
  ∧ dictGet (DatabaseRegistry.initialize_registry s (some f)).2.registered_databases
      "sqlite" = some SQLiteDatabase
  ∧ (∀ pe, read_profiles_from_file f = .error pe →
      (DatabaseRegistry.initialize_registry s (some f)).2.registered_profiles = [])
  ∧ (∀ ps, read_profiles_from_file f = .ok ps →
      ∃ k, k < ps.length ∧
        (register_profiles_loop builtins_state (ps.take k)).1 = .ok () ∧
        (DatabaseRegistry.initialize_registry s (some f)).2.registered_profiles =
          (register_profiles_loop builtins_state (ps.take k)).2.registered_profiles) := by
  rw [initialize_registry_some_eq] at h ⊢
  rcases hrf : read_profiles_from_file f with e₁ | ps
  · simp only [hrf] at h ⊢
    refine ⟨rfl, rfl, rfl, fun pe _ => rfl, fun ps hcontra => ?_⟩
    exact absurd hcontra (by simp)
  · simp only [hrf] at h ⊢
    rcases hloop : register_profiles_loop builtins_state ps with ⟨r, s₃⟩
    have hs₃ : (register_profiles_loop builtins_state ps).2 = s₃ := by rw [hloop]
    have hflags := register_profiles_loop_dbs_flag ps builtins_state
    rw [hs₃] at hflags
    cases r with
    | ok u => rw [hloop] at h; simp at h
    | error e₂ =>
        refine ⟨hflags.2.trans rfl, ?_, ?_, fun pe hcontra => ?_, fun ps₁ hps₁ => ?_⟩
        · show dictGet s₃.registered_databases "mysql" = some MySQLDatabase
          rw [hflags.1]; rfl
        · show dictGet s₃.registered_databases "sqlite" = some SQLiteDatabase
          rw [hflags.1]; rfl
        · exact absurd hcontra (by simp)
        · obtain rfl : ps = ps₁ := Except.ok.inj hps₁
          obtain ⟨k, hk, hok, hst⟩ :=
            register_profiles_loop_error_take ps builtins_state e₂ (by rw [hloop])
          refine ⟨k, hk, hok, ?_⟩
          show s₃.registered_profiles = _
          rw [← hs₃, hst]

/-- Witness for C9: initializing from a file whose single profile names the
unsupported system `"dummy"` fails (with `RegisterProfileError` code 5),
leaving the flag false, the built-ins registered, and no profiles. -/
theorem C9_witness :
    (DatabaseRegistry.initialize_registry empty_db_state
        (some bad_profiles_file)).2.is_initialized = false
  ∧ dictGet (DatabaseRegistry.initialize_registry empty_db_state
        (some bad_profiles_file)).2.registered_databases "mysql" = some MySQLDatabase
  ∧ dictGet (DatabaseRegistry.initialize_registry empty_db_state
        (some bad_profiles_file)).2.registered_databases "sqlite" = some SQLiteDatabase
  ∧ (∀ pe, read_profiles_from_file bad_profiles_file = .error pe →
      (DatabaseRegistry.initialize_registry empty_db_state
        (some bad_profiles_file)).2.registered_profiles = [])
  ∧ (∀ ps, read_profiles_from_file bad_profiles_file = .ok ps →
      ∃ k, k < ps.length ∧
        (register_profiles_loop builtins_state (ps.take k)).1 = .ok () ∧
        (DatabaseRegistry.initialize_registry empty_db_state
            (some bad_profiles_file)).2.registered_profiles =
          (register_profiles_loop builtins_state (ps.take k)).2.registered_profiles) :=
  C9_initialize_not_atomic empty_db_state bad_profiles_file
    (.dm ⟨.registerProfileError, 5⟩) rfl

/-- C10: every lookup and validation operation of both registries leaves
the registry state unchanged, whether it returns normally or raises. -/
theorem C10_lookups_preserve_state
    (s : DBRegistryState) (ms : MapperRegistryState) (pn : Option String)
    (p : Option PyObj) (d : Option DatabaseClass) (m : Option ModelArg)
    (fs : Option FieldsVal) (ek : ErrorKind) :
    (DatabaseRegistry.get_database s pn p).2 = s
  ∧ (get_profile s pn).2 = s
  ∧ (get_first_registered_profile s).2 = s
  ∧ (get_last_registered_profile s).2 = s
  ∧ (DatabaseRegistry.validate_database s d ek).2 = s
  ∧ (DatabaseRegistry.validate_profile s p ek).2 = s
  ∧ (DatabaseRegistry.validate_profile_name s pn ek).2 = s
  ∧ (MapperRegistry.get_mapper ms m).2 = ms
  ∧ (MapperRegistry.validate_model ms m ek).2 = ms
  ∧ (MapperRegistry.validate_fields ms fs ek).2 = ms :=
  ⟨get_database_state s pn p, get_profile_state s pn,
   get_first_registered_profile_state s, get_last_registered_profile_state s,
   validate_database_state s d ek, validate_profile_state s p ek,
   validate_profile_name_state s pn ek, get_mapper_state ms m,
   validate_model_state ms m ek, validate_fields_state ms fs ek⟩

end Claims

end DataMapper
